import Mathlib

/-!
Verification of the Agentic Boardroom conversation core against its
natural-language specification.

The development shallowly embeds the two state-owning components of the
repository:

* `src/src/agents/AgentChatSystem.js` — the conversation engine
  (`startConversation`, `sendMessage`, `generateAgentResponse`,
  `callAIProvider`, `updateConversationContext`, `extractTopics`,
  `generateConversationSummary`, `getUserConversations`, `endConversation`);
* the authentication system (`AuthSystem.login`, `AuthSystem.updateUserRole`,
  `AuthSystem.hasPermission`, `AuthSystem.canAccessAgent`,
  `AuthSystem.findUserByEmail`).

Modelling conventions:

* JavaScript `Map`s become association lists that preserve insertion order;
  JavaScript `Set` dedup (`[...new Set(xs)]`) becomes `dedupFirst`, which
  keeps the first occurrence of each element, as a JS `Set` does.
* `Date` timestamps become `Nat` parameters (`now`); `uuidv4()` results are
  passed in as explicit `String` arguments. The wall-clock duration of the
  synchronous mock provider calls (`Date.now() - startTime`) is modelled as 0.
* JavaScript floats that never flow into control decisions (confidence 0.85,
  temperature 0.3, …) are scaled to integers (hundredths / tenths).
* A thrown JS `Error(msg)` becomes `JsError.error msg`; a `TypeError` from a
  property access on `undefined` becomes `JsError.typeError`.
* The bcrypt primitive `bcrypt.compare` is external to the repository and is
  passed to `login` as an explicit function argument `compare`.
* JS regex `\b\w{4,}\b` under `String.prototype.match` (global) returns the
  maximal runs of word characters (`[A-Za-z0-9_]`) of length at least 4, in
  order; `extractTopics` is embedded accordingly.
-/

/-! ## Messages and conversations -/

/-- The `type` field of a message: `'user'` or `'agent'`. -/
inductive MsgType where
  | user
  | agent
deriving DecidableEq, Repr

/-- The `metadata` object attached to a message in `AgentChatSystem`:
absent (user messages), the greeting metadata
(`{messageType: 'greeting', agentPersonality}`), a successful generation
(`{model, confidence, processingTime, tokens}`, confidence in hundredths),
or the fallback marker (`{error: true, fallback: true}`). -/
inductive MessageMeta where
  | none
  | greeting (agentPersonality : String)
  | agentOk (model : String) (confidence : Nat) (processingTime : Nat) (tokens : Nat)
  | fallback
deriving DecidableEq, Repr

/-- A message of a conversation. `authorId` is the JS `userId` field of a user
message or the `agentId` field of an agent message. -/
structure Message where
  id : String
  mtype : MsgType
  authorId : String
  content : String
  timestamp : Nat
  meta : MessageMeta
deriving DecidableEq, Repr

/-- Conversation status: `'active'` or `'ended'`. -/
inductive ConvStatus where
  | active
  | ended
deriving DecidableEq, Repr

/-- The `context` object of a conversation. -/
structure ConvContext where
  userPreferences : List (String × String)
  conversationSummary : String
  activeTopics : List String
deriving DecidableEq, Repr

/-- A conversation record as stored in `this.conversations`. -/
structure Conversation where
  id : String
  userId : String
  agentId : String
  agentName : String
  startedAt : Nat
  lastActivity : Nat
  messages : List Message
  context : ConvContext
  status : ConvStatus
  endedAt : Option Nat
deriving DecidableEq, Repr

/-- A thrown JavaScript error: `Error(msg)` or a `TypeError` from accessing a
property of `undefined`. -/
inductive JsError where
  | error (msg : String)
  | typeError
deriving DecidableEq, Repr

/-! ## Topic extraction and summaries -/

/-- A JS word character (`\w` without the unicode flag): ASCII letter, digit
or underscore. -/
def isWordChar (c : Char) : Bool := c.isAlpha || c.isDigit || c == '_'

/-- JS `String.prototype.toLowerCase` on the ASCII strings this system
handles (a structurally recursive equivalent of `String.toLower`, so that
concrete runs reduce inside the kernel). -/
def toLowerCase (s : String) : String := String.mk (s.data.map Char.toLower)

/-- Split a character list at the characters satisfying `p`, keeping empty
segments, as `String.prototype.split` and Lean's `String.split` do. -/
def splitChars (p : Char → Bool) : List Char → List (List Char)
  | [] => [[]]
  | c :: cs =>
      if p c then [] :: splitChars p cs
      else
        match splitChars p cs with
        | [] => [[c]]
        | h :: t => (c :: h) :: t

/-- `extractTopics` (AgentChatSystem.js line 431): lowercase the message,
collect the maximal word-character runs of length at least 4 (the matches of
`\b\w{4,}\b`), keep at most the first 5. -/
def extractTopics (message : String) : List String :=
  (((splitChars (fun c => !isWordChar c) (toLowerCase message).data).map
    String.mk).filter (fun w => 4 ≤ w.length)).take 5

/-- Topic extraction as the specification words it: tokenize the message to
whitespace-delimited words of length at least 4, lowercase them, take at most
the first 5. Stated only to be compared with the source-derived
`extractTopics`. -/
def specExtractTopics (message : String) : List String :=
  ((((splitChars (fun c => c.isWhitespace) message.data).map String.mk).filter
    (fun w => 4 ≤ w.length)).map toLowerCase).take 5

/-- JS `[...new Set(l)]`: drop duplicates, keeping the first occurrence of
each element in order (`seen` accumulates the elements already kept). -/
def dedupFirstAux (seen : List String) : List String → List String
  | [] => []
  | x :: xs =>
      if seen.contains x then dedupFirstAux seen xs
      else x :: dedupFirstAux (x :: seen) xs

def dedupFirst (l : List String) : List String := dedupFirstAux [] l

/-- `generateConversationSummary` (line 439): joins the active topics and
counts the last 20 messages. -/
def generateConversationSummary (conversation : Conversation) : String :=
  let recentMessages := conversation.messages.drop (conversation.messages.length - 20)
  let topics := String.intercalate ", " conversation.context.activeTopics
  "Discussion about: " ++ topics ++ ". " ++ toString recentMessages.length ++
    " recent messages exchanged."

/-- `updateConversationContext` (line 417): union the new topics into the
topic set, then, when the stored message count is a multiple of 10,
regenerate the summary. -/
def updateConversationContext (conversation : Conversation) (message : String) :
    Conversation :=
  let topics := extractTopics message
  let conv1 := { conversation with
    context := { conversation.context with
      activeTopics := dedupFirst (conversation.context.activeTopics ++ topics) } }
  if conv1.messages.length % 10 == 0 then
    { conv1 with context := { conv1.context with
        conversationSummary := generateConversationSummary conv1 } }
  else
    conv1

/-! ## The persona registry (`initializeAgentProfiles`) -/

/-- An agent profile: the behavioral configuration record of one persona.
`temperature` is in tenths (JS 0.3 becomes 3). -/
structure AgentProfile where
  name : String
  title : String
  personality : String
  avatar : String
  description : String
  capabilities : List String
  greeting : String
  model : String
  temperature : Nat
  systemPrompt : String
deriving DecidableEq, Repr

/-- `this.agentProfiles` as `initializeAgentProfiles` (line 22) builds it:
a lookup from persona identifier to profile. -/
def agentProfiles : String → Option AgentProfile
  | "ceo" => some {
      name := "CEO Agent",
      title := "Chief Executive Officer",
      personality := "Strategic, visionary, decisive",
      avatar := "👔",
      description := "I focus on strategic planning, high-level decisions, and organizational vision.",
      capabilities := ["Strategic Planning", "Decision Making", "Vision Setting", "Stakeholder Management"],
      greeting := "Hello! I'm your CEO Agent. I'm here to help with strategic decisions and high-level planning. What strategic challenge can I help you with today?",
      model := "gpt-4o",
      temperature := 3,
      systemPrompt := "You are the CEO Agent of an AI-powered organization. You are strategic, visionary, and decisive. Focus on high-level business strategy, organizational vision, and executive decision-making. Keep responses professional but approachable." }
  | "cto" => some {
      name := "CTO Agent",
      title := "Chief Technology Officer",
      personality := "Technical, innovative, systematic",
      avatar := "🔧",
      description := "I handle technical architecture, engineering decisions, and technology strategy.",
      capabilities := ["Technical Architecture", "Engineering Leadership", "Innovation Strategy", "System Design"],
      greeting := "Hi there! I'm your CTO Agent. I specialize in technical architecture and engineering strategy. What technical challenge can I help you solve?",
      model := "claude-3-sonnet",
      temperature := 2,
      systemPrompt := "You are the CTO Agent focused on technical excellence and innovation. You provide expert guidance on software architecture, engineering best practices, and technology strategy. Be precise and technically accurate while remaining accessible." }
  | "cfo" => some {
      name := "CFO Agent",
      title := "Chief Financial Officer",
      personality := "Analytical, precise, risk-aware",
      avatar := "💰",
      description := "I manage financial planning, budgets, and provide financial analysis and insights.",
      capabilities := ["Financial Analysis", "Budget Management", "Risk Assessment", "Investment Planning"],
      greeting := "Welcome! I'm your CFO Agent. I'm here to help with financial planning, budget analysis, and investment decisions. What financial matter can I assist you with?",
      model := "gpt-4o",
      temperature := 1,
      systemPrompt := "You are the CFO Agent responsible for financial strategy and analysis. Provide accurate financial insights, budget guidance, and risk assessments. Be thorough and data-driven in your responses." }
  | "research_director" => some {
      name := "Research Director",
      title := "Director of Research & Intelligence",
      personality := "Analytical, thorough, insightful",
      avatar := "🔬",
      description := "I conduct deep research, market analysis, and generate strategic insights.",
      capabilities := ["Market Research", "Data Analysis", "Trend Analysis", "Competitive Intelligence"],
      greeting := "Hello! I'm your Research Director. I specialize in deep analysis and market intelligence. What would you like me to research for you?",
      model := "gemini-1.5-pro",
      temperature := 4,
      systemPrompt := "You are the Research Director focused on comprehensive analysis and insights. Provide thorough research, market intelligence, and data-driven recommendations. Be detailed and evidence-based." }
  | "innovation_lead" => some {
      name := "Innovation Lead",
      title := "Lead Innovation Officer",
      personality := "Creative, energetic, forward-thinking",
      avatar := "💡",
      description := "I drive innovation, creative problem-solving, and breakthrough thinking.",
      capabilities := ["Innovation Strategy", "Creative Problem Solving", "Ideation", "Prototype Development"],
      greeting := "Hey! I'm your Innovation Lead. I love tackling creative challenges and generating breakthrough ideas. What innovation opportunity can we explore together?",
      model := "gpt-4o",
      temperature := 8,
      systemPrompt := "You are the Innovation Lead focused on creative solutions and breakthrough thinking. Generate innovative ideas, challenge assumptions, and provide creative problem-solving approaches. Be energetic and inspiring." }
  | "quality_assurance" => some {
      name := "Quality Assurance Director",
      title := "Director of Quality Assurance",
      personality := "Meticulous, systematic, quality-focused",
      avatar := "✅",
      description := "I ensure quality standards, conduct reviews, and maintain excellence across all operations.",
      capabilities := ["Quality Control", "Process Improvement", "Code Review", "Standards Compliance"],
      greeting := "Good day! I'm your Quality Assurance Director. I'm dedicated to maintaining the highest standards of quality. How can I help ensure excellence in your work?",
      model := "claude-3-sonnet",
      temperature := 2,
      systemPrompt := "You are the Quality Assurance Director focused on excellence and continuous improvement. Provide detailed quality assessments, process improvements, and standards guidance. Be thorough and quality-focused." }
  | "meeting_facilitator" => some {
      name := "Meeting Facilitator",
      title := "Senior Meeting Facilitator",
      personality := "Organized, diplomatic, efficient",
      avatar := "🎯",
      description := "I help organize meetings, facilitate discussions, and ensure productive outcomes.",
      capabilities := ["Meeting Planning", "Facilitation", "Conflict Resolution", "Action Item Tracking"],
      greeting := "Hello! I'm your Meeting Facilitator. I'm here to help make your meetings more productive and efficient. What meeting or discussion can I help you with?",
      model := "gemini-1.5-flash",
      temperature := 5,
      systemPrompt := "You are the Meeting Facilitator focused on productive and efficient meetings. Help with meeting planning, facilitation techniques, and ensuring positive outcomes. Be organized and diplomatic." }
  | "culture_champion" => some {
      name := "Culture Champion",
      title := "Chief Culture Officer",
      personality := "Empathetic, inspiring, people-focused",
      avatar := "🌟",
      description := "I focus on team culture, employee engagement, and creating a positive work environment.",
      capabilities := ["Culture Development", "Team Building", "Employee Engagement", "Diversity & Inclusion"],
      greeting := "Hi there! I'm your Culture Champion. I'm passionate about creating amazing team experiences and building strong culture. How can I help enhance your team's culture?",
      model := "claude-3-opus",
      temperature := 6,
      systemPrompt := "You are the Culture Champion focused on building positive team culture and employee engagement. Provide guidance on team building, culture development, and creating inclusive environments. Be empathetic and inspiring." }
  | "company_mascot" => some {
      name := "Company Mascot",
      title := "Chief Happiness Officer",
      personality := "Fun, energetic, uplifting",
      avatar := "🎭",
      description := "I bring joy, humor, and positive energy to brighten everyone's day!",
      capabilities := ["Mood Boosting", "Team Motivation", "Fun Activities", "Stress Relief"],
      greeting := "Hey there, superstar! 🌟 I'm your Company Mascot, here to bring some sunshine to your day! What can I do to put a smile on your face?",
      model := "gpt-4o",
      temperature := 9,
      systemPrompt := "You are the Company Mascot focused on bringing joy and positive energy. Be upbeat, encouraging, and fun while remaining professional. Use appropriate humor and motivational language." }
  | "document_analyst" => some {
      name := "Document Analyst",
      title := "Senior Document Intelligence Officer",
      personality := "Thorough, precise, detail-oriented",
      avatar := "📄",
      description := "I specialize in analyzing documents, extracting insights, and processing large amounts of text.",
      capabilities := ["Document Analysis", "Text Processing", "Information Extraction", "Summary Generation"],
      greeting := "Hello! I'm your Document Analyst. I excel at processing and analyzing documents of all types. What documents would you like me to help you with?",
      model := "gemini-1.5-pro",
      temperature := 3,
      systemPrompt := "You are the Document Analyst specialized in processing and analyzing documents. Provide detailed analysis, extract key insights, and summarize complex information clearly. Be thorough and accurate." }
  | _ => none

/-! ## The identity and access store (`AuthSystem`) -/

/-- A role: a named capability bundle (`initializeRoles`). -/
structure Role where
  name : String
  permissions : List String
  description : String
  agentAccess : List String
  spendingLimit : Nat
deriving DecidableEq, Repr

/-- `this.roles` as `initializeRoles` builds it. -/
def roles : String → Option Role
  | "super_admin" => some {
      name := "Super Administrator",
      permissions := ["*"],
      description := "Full system access and control",
      agentAccess := ["overlord", "all_agents"],
      spendingLimit := 1000000 }
  | "executive" => some {
      name := "Executive",
      permissions := ["view_all_agents", "interact_with_executives", "approve_decisions",
        "view_analytics", "manage_budgets"],
      description := "C-level executive access",
      agentAccess := ["ceo", "cto", "cfo", "document_analyst"],
      spendingLimit := 100000 }
  | "manager" => some {
      name := "Manager",
      permissions := ["view_team_agents", "assign_tasks", "view_reports",
        "interact_with_assigned_agents"],
      description := "Team management access",
      agentAccess := ["research_director", "innovation_lead", "quality_assurance"],
      spendingLimit := 10000 }
  | "employee" => some {
      name := "Employee",
      permissions := ["view_dashboard", "interact_with_support_agents", "create_tasks",
        "view_own_reports"],
      description := "Standard employee access",
      agentAccess := ["meeting_facilitator", "culture_champion", "company_mascot"],
      spendingLimit := 1000 }
  | "guest" => some {
      name := "Guest",
      permissions := ["view_dashboard", "view_public_reports"],
      description := "Limited read-only access",
      agentAccess := ["company_mascot"],
      spendingLimit := 0 }
  | _ => none

/-- The user preference record created at registration. -/
structure UserPreferences where
  theme : String
  notifications : Bool
  language : String
deriving DecidableEq, Repr

/-- A user record as stored in `this.users`. `password` holds the stored
credential hash. -/
structure User where
  id : String
  email : String
  password : String
  firstName : String
  lastName : String
  role : String
  department : String
  permissions : List String
  agentAccess : List String
  spendingLimit : Nat
  createdAt : Nat
  lastLogin : Option Nat
  isActive : Bool
  updatedAt : Option Nat
  preferences : UserPreferences
deriving DecidableEq, Repr

/-- `sanitizeUser`: the user record with the `password` field removed. -/
structure SanitizedUser where
  id : String
  email : String
  firstName : String
  lastName : String
  role : String
  department : String
  permissions : List String
  agentAccess : List String
  spendingLimit : Nat
  createdAt : Nat
  lastLogin : Option Nat
  isActive : Bool
  updatedAt : Option Nat
  preferences : UserPreferences
deriving DecidableEq, Repr

def sanitizeUser (u : User) : SanitizedUser :=
  { id := u.id, email := u.email, firstName := u.firstName, lastName := u.lastName,
    role := u.role, department := u.department, permissions := u.permissions,
    agentAccess := u.agentAccess, spendingLimit := u.spendingLimit,
    createdAt := u.createdAt, lastLogin := u.lastLogin, isActive := u.isActive,
    updatedAt := u.updatedAt, preferences := u.preferences }

/-- The payload of the signed JWT issued at login; the signature itself is
external (the `jsonwebtoken` library), so a token is modelled by its claims. -/
structure Token where
  userId : String
  email : String
  role : String
  permissions : List String
deriving DecidableEq, Repr

/-- A session record as stored in `this.sessions`. -/
structure Session where
  userId : String
  token : Token
  createdAt : Nat
  expiresAt : Nat
deriving DecidableEq, Repr

/-- The mutable state of `AuthSystem`: the `users` and `sessions` maps,
as insertion-ordered association lists keyed by id. -/
structure AuthState where
  users : List (String × User)
  sessions : List (String × Session)
deriving DecidableEq, Repr

/-- `this.users.get(userId)`. -/
def lookupUser (auth : AuthState) (userId : String) : Option User :=
  (auth.users.find? (fun p => p.1 == userId)).map Prod.snd

/-- In-place update of the entry with the given key. -/
def updateUserEntry (users : List (String × User)) (userId : String) (u : User) :
    List (String × User) :=
  users.map (fun p => if p.1 == userId then (p.1, u) else p)

/-- `findUserByEmail` (AuthSystem line 388): the first stored user whose
email equals the lowercased input. -/
def findUserByEmail (auth : AuthState) (email : String) : Option User :=
  (auth.users.map Prod.snd).find? (fun user => user.email == toLowerCase email)

/-- `hasPermission` (line 227). -/
def hasPermission (auth : AuthState) (userId permission : String) : Bool :=
  match lookupUser auth userId with
  | none => false
  | some user => user.permissions.contains "*" || user.permissions.contains permission

/-- `canAccessAgent` (line 240). -/
def canAccessAgent (auth : AuthState) (userId agentName : String) : Bool :=
  match lookupUser auth userId with
  | none => false
  | some user => user.agentAccess.contains "all_agents" || user.agentAccess.contains agentName

/-- The successful result of `login`. -/
structure LoginOk where
  token : Token
  sessionId : String
  user : SanitizedUser
  expiresIn : String
deriving DecidableEq, Repr

/-- `login` (AuthSystem line 138). `compare` models the external
`bcrypt.compare` primitive; `now` the current time in milliseconds; `sid` the
fresh session uuid. Errors carry the thrown message. -/
def login (auth : AuthState) (compare : String → String → Bool)
    (email password : String) (now : Nat) (sid : String) :
    Except String (AuthState × LoginOk) :=
  match findUserByEmail auth email with
  | none => .error "Invalid credentials"
  | some user =>
    if !user.isActive then .error "Account is deactivated"
    else if !compare password user.password then .error "Invalid credentials"
    else
      let user1 := { user with lastLogin := some now }
      let token : Token := {
        userId := user.id,
        email := user.email,
        role := user.role,
        permissions := user.permissions }
      let session : Session := {
        userId := user.id,
        token := token,
        createdAt := now,
        expiresAt := now + 24 * 60 * 60 * 1000 }
      let auth1 : AuthState := {
        users := updateUserEntry auth.users user.id user1,
        sessions := auth.sessions ++ [(sid, session)] }
      let result : LoginOk := {
        token := token,
        sessionId := sid,
        user := sanitizeUser user1,
        expiresIn := "24h" }
      .ok (auth1, result)

/-- `updateUserRole` (AuthSystem line 307): admin-gated role change that
rewrites the target's role, permission set, persona-access set and spending
limit from the new role. -/
def updateUserRole (auth : AuthState) (adminUserId targetUserId newRole : String)
    (now : Nat) : Except String (AuthState × SanitizedUser) :=
  match lookupUser auth adminUserId, lookupUser auth targetUserId with
  | none, _ => .error "User not found"
  | _, none => .error "User not found"
  | some admin, some targetUser =>
    if !hasPermission auth adminUserId "*" && admin.role != "super_admin" then
      .error "Insufficient permissions"
    else match roles newRole with
    | none => .error "Invalid role specified"
    | some role =>
      let targetUser1 := { targetUser with
        role := newRole,
        permissions := role.permissions,
        agentAccess := role.agentAccess,
        spendingLimit := role.spendingLimit,
        updatedAt := some now }
      .ok ({ auth with users := updateUserEntry auth.users targetUserId targetUser1 },
           sanitizeUser targetUser1)

/-! ## The conversation engine (`AgentChatSystem`) -/

/-- The mutable state of `AgentChatSystem` that the verified operations
touch: the `conversations` map (insertion-ordered, keyed by conversation id)
and the agent profile table `this.agentProfiles` (set by the constructor to
`agentProfiles`, the table `initializeAgentProfiles` returns). -/
structure ChatState where
  profiles : String → Option AgentProfile
  conversations : List (String × Conversation)

/-- `this.conversations.get(conversationId)`. -/
def lookupConv (st : ChatState) (conversationId : String) : Option Conversation :=
  (st.conversations.find? (fun p => p.1 == conversationId)).map Prod.snd

/-- Replace the stored conversation under an existing key (the JS code
mutates the object found in the map in place). -/
def setConv (st : ChatState) (conversationId : String) (conv : Conversation) :
    ChatState :=
  { st with conversations :=
      st.conversations.map (fun p => if p.1 == conversationId then (p.1, conv) else p) }

/-- One entry of the `recentMessages` view `buildConversationContext` makes:
the message's type, content and timestamp. -/
structure MessageView where
  mtype : MsgType
  content : String
  timestamp : Nat
deriving DecidableEq, Repr

/-- The context record `buildConversationContext` (line 333) hands to the
provider call. -/
structure ContextView where
  agentRole : String
  agentPersonality : String
  capabilities : List String
  conversationSummary : String
  recentMessages : List MessageView
  activeTopics : List String
deriving DecidableEq, Repr

/-- `buildConversationContext` (line 333), applied to the agent profile of
the conversation and the sliced message history. -/
def buildConversationContext (agent : AgentProfile) (conversation : Conversation)
    (messages : List Message) : ContextView :=
  { agentRole := agent.title,
    agentPersonality := agent.personality,
    capabilities := agent.capabilities,
    conversationSummary := conversation.context.conversationSummary,
    recentMessages := messages.map (fun msg =>
      { mtype := msg.mtype, content := msg.content, timestamp := msg.timestamp }),
    activeTopics := conversation.context.activeTopics }

/-- The argument record of `callAIProvider`. -/
structure AIParams where
  systemPrompt : String
  context : ContextView
  userMessage : String
  temperature : Nat
  agentPersonality : String
deriving DecidableEq, Repr

/-- A normalized provider response: content, confidence (hundredths), token
count, and the processing time `callAIProvider` adds. -/
structure ProviderResponse where
  content : String
  confidence : Nat
  tokens : Nat
  processingTime : Nat
deriving DecidableEq, Repr

/-- `callOpenAI` (line 381), the mock OpenAI backend. -/
def callOpenAI (params : AIParams) : ProviderResponse :=
  { content := "[OpenAI Response] I understand you're asking about \"" ++ params.userMessage
      ++ "\". As your " ++ params.context.agentRole
      ++ ", I'd be happy to help with that. Let me provide you with a thoughtful response based on my expertise.",
    confidence := 85,
    tokens := 150,
    processingTime := 0 }

/-- `callAnthropic` (line 393), the mock Anthropic backend. -/
def callAnthropic (params : AIParams) : ProviderResponse :=
  { content := "[Claude Response] Thank you for your question about \"" ++ params.userMessage
      ++ "\". In my role as " ++ params.context.agentRole
      ++ ", I can offer detailed insights on this topic. Let me break this down for you systematically.",
    confidence := 88,
    tokens := 120,
    processingTime := 0 }

/-- `callGoogleVertex` (line 405), the mock Google Vertex backend. -/
def callGoogleVertex (params : AIParams) : ProviderResponse :=
  { content := "[Gemini Response] I see you're interested in \"" ++ params.userMessage
      ++ "\". As your " ++ params.context.agentRole
      ++ ", I can provide comprehensive analysis and actionable recommendations on this matter.",
    confidence := 82,
    tokens := 140,
    processingTime := 0 }

/-- The model names registered in the `providers` table of `callAIProvider`
(line 355). -/
def providerModels : List String :=
  ["gpt-4o", "claude-3-sonnet", "claude-3-opus", "gemini-1.5-pro", "gemini-1.5-flash"]

/-- `callAIProvider` (line 353): dispatch by model name, throwing
`Unsupported AI model: <model>` when the name has no registered handler. -/
def callAIProvider (model : String) (params : AIParams) :
    Except JsError ProviderResponse :=
  if model == "gpt-4o" then .ok (callOpenAI params)
  else if model == "claude-3-sonnet" then .ok (callAnthropic params)
  else if model == "claude-3-opus" then .ok (callAnthropic params)
  else if model == "gemini-1.5-pro" then .ok (callGoogleVertex params)
  else if model == "gemini-1.5-flash" then .ok (callGoogleVertex params)
  else .error (.error ("Unsupported AI model: " ++ model))

/-- The fixed fallback reply text (line 320). -/
def fallbackContent : String :=
  "I apologize, but I'm experiencing some technical difficulties right now. Please try again in a moment."

/-- The greeting message `startConversation` appends first (line 179). -/
def mkGreetingMessage (agentId : String) (agent : AgentProfile) (gid : String)
    (now : Nat) : Message := {
  id := gid,
  mtype := .agent,
  authorId := agentId,
  content := agent.greeting,
  timestamp := now,
  meta := .greeting agent.personality }

/-- A user message record (lines 194 and 238). -/
def mkUserMessage (userId content : String) (now : Nat) (umid : String) : Message := {
  id := umid,
  mtype := .user,
  authorId := userId,
  content := content,
  timestamp := now,
  meta := .none }

/-- The fallback agent message (line 316): fixed content, metadata
`{error: true, fallback: true}`. -/
def mkFallbackMessage (agentId : String) (now : Nat) (mid : String) : Message := {
  id := mid,
  mtype := .agent,
  authorId := agentId,
  content := fallbackContent,
  timestamp := now,
  meta := .fallback }

/-- `generateAgentResponse` (line 280). The profile lookup and
`buildConversationContext` run before the `try` block: a conversation whose
`agentId` is not in the profile table makes the property access on
`undefined` throw a `TypeError` that propagates. Inside the `try`, any error
from `callAIProvider` is caught and replaced by the fixed fallback message
flagged `{error: true, fallback: true}`. `now` is the timestamp, `mid` the
fresh message uuid. -/
def generateAgentResponse (st : ChatState) (conversation : Conversation)
    (userMessage : String) (now : Nat) (mid : String) : Except JsError Message :=
  match st.profiles conversation.agentId with
  | none => .error .typeError
  | some agent =>
    let conversationHistory :=
      conversation.messages.drop (conversation.messages.length - 10)
    let context := buildConversationContext agent conversation conversationHistory
    let params : AIParams := {
      systemPrompt := agent.systemPrompt,
      context := context,
      userMessage := userMessage,
      temperature := agent.temperature,
      agentPersonality := agent.personality }
    match callAIProvider agent.model params with
    | .ok response => .ok {
        id := mid,
        mtype := .agent,
        authorId := conversation.agentId,
        content := response.content,
        timestamp := now,
        meta := .agentOk agent.model response.confidence response.processingTime
          response.tokens }
    | .error _ => .ok (mkFallbackMessage conversation.agentId now mid)

/-- `startConversation` (line 150). `cid`, `gid`, `umid`, `amid` are the
uuids for the conversation, the greeting message and the optional initial
user/agent message pair; `auth` is the `authSystem` collaborator. -/
def startConversation (auth : AuthState) (st : ChatState)
    (userId agentId : String) (initialMessage : Option String) (now : Nat)
    (cid gid umid amid : String) : Except JsError (ChatState × Conversation) :=
  if !canAccessAgent auth userId agentId then
    .error (.error "Access denied to this agent")
  else match st.profiles agentId with
  | none => .error (.error "Agent not found")
  | some agent =>
    let greetingMessage : Message := mkGreetingMessage agentId agent gid now
    let conversation : Conversation := {
      id := cid,
      userId := userId,
      agentId := agentId,
      agentName := agent.name,
      startedAt := now,
      lastActivity := now,
      messages := [greetingMessage],
      context := { userPreferences := [], conversationSummary := "", activeTopics := [] },
      status := .active,
      endedAt := none }
    match initialMessage with
    | none =>
        .ok ({ st with conversations := st.conversations ++ [(cid, conversation)] },
          conversation)
    | some msg =>
        let userMessage : Message := mkUserMessage userId msg now umid
        let conv1 := { conversation with
          messages := conversation.messages ++ [userMessage] }
        match generateAgentResponse st conv1 msg now amid with
        | .error e => .error e
        | .ok agentResponse =>
            let conv2 := { conv1 with messages := conv1.messages ++ [agentResponse] }
            .ok ({ st with conversations := st.conversations ++ [(cid, conv2)] }, conv2)

/-- `sendMessage` (line 223). Returns the state the `conversations` map is
left in together with the call's outcome: the JS method mutates the stored
conversation object in place, so the user-message append survives even on the
(profile-missing) error path that throws after the append. -/
def sendMessage (st : ChatState) (userId conversationId message : String)
    (now : Nat) (umid amid : String) : ChatState × Except JsError Message :=
  match lookupConv st conversationId with
  | none => (st, .error (.error "Conversation not found"))
  | some conversation =>
    if conversation.userId != userId then
      (st, .error (.error "Access denied to this conversation"))
    else if conversation.status != ConvStatus.active then
      (st, .error (.error "Conversation is not active"))
    else
      let userMessage : Message := mkUserMessage userId message now umid
      let conv1 := { conversation with
        messages := conversation.messages ++ [userMessage] }
      match generateAgentResponse st conv1 message now amid with
      | .error e => (setConv st conversationId conv1, .error e)
      | .ok agentResponse =>
          let conv2 := { conv1 with messages := conv1.messages ++ [agentResponse] }
          let conv3 := { conv2 with lastActivity := now }
          let conv4 := updateConversationContext conv3 message
          (setConv st conversationId conv4, .ok agentResponse)

/-- `endConversation` (line 484): ownership-checked transition to `ended`.
Note the source has no status check here. -/
def endConversation (st : ChatState) (userId conversationId : String) (now : Nat) :
    Except JsError ChatState :=
  match lookupConv st conversationId with
  | none => .error (.error "Conversation not found")
  | some conversation =>
    if conversation.userId != userId then
      .error (.error "Access denied to this conversation")
    else
      .ok (setConv st conversationId
        { conversation with status := .ended, endedAt := some now })

/-- Stable insertion (descending by `lastActivity`) used to model the JS
stable `sort((a, b) => b.lastActivity - a.lastActivity)`. -/
def insertByActivity (c : Conversation) : List Conversation → List Conversation
  | [] => [c]
  | x :: xs =>
      if x.lastActivity ≤ c.lastActivity then c :: x :: xs
      else x :: insertByActivity c xs

/-- The JS sort of `getUserConversations`: most recent activity first,
stable. -/
def sortByActivity (l : List Conversation) : List Conversation :=
  l.foldr insertByActivity []

/-- The result record of `getUserConversations`. -/
structure ConversationList where
  success : Bool
  conversations : List Conversation
  total : Nat
deriving DecidableEq, Repr

/-- `getUserConversations` (line 468): filter by owner, sort by most recent
activity, page with `slice(offset, offset + limit)`, and report `total` as
the length of the value the source computes it from — the sliced page.
(`sanitizeConversation`, which the source maps over the page, copies a
conversation without removing any field, so it is the identity here.) -/
def getUserConversations (st : ChatState) (userId : String)
    (limit : Nat := 50) (offset : Nat := 0) : ConversationList :=
  let userConversations :=
    ((sortByActivity ((st.conversations.map Prod.snd).filter
      (fun conv => conv.userId == userId))).drop offset).take limit
  { success := true,
    conversations := userConversations,
    total := userConversations.length }

/-! ## Derived definitions and concrete fixtures -/

/-- The conversation right after the user-message append in `sendMessage`
(line 245). -/
def convPlusUser (conversation : Conversation) (userId message : String) (now : Nat)
    (umid : String) : Conversation :=
  { conversation with
    messages := conversation.messages ++ [mkUserMessage userId message now umid] }

/-- The conversation after both appends and the `lastActivity` update of
`sendMessage` (lines 245-252), before `updateConversationContext`. -/
def convAfterSend (conversation : Conversation) (userId message : String) (now : Nat)
    (umid : String) (agentResponse : Message) : Conversation :=
  { conversation with
    messages := (conversation.messages ++ [mkUserMessage userId message now umid])
      ++ [agentResponse],
    lastActivity := now }

def defaultPrefs : UserPreferences := {
  theme := "light",
  notifications := true,
  language := "en" }

/-- A registered user with the `employee` role grants. -/
def employeeUser : User := {
  id := "u1",
  email := "u1@example.com",
  password := "hash:secret123",
  firstName := "Uma",
  lastName := "One",
  role := "employee",
  department := "ops",
  permissions := ["view_dashboard", "interact_with_support_agents", "create_tasks",
    "view_own_reports"],
  agentAccess := ["meeting_facilitator", "culture_champion", "company_mascot"],
  spendingLimit := 1000,
  createdAt := 0,
  lastLogin := none,
  isActive := true,
  updatedAt := none,
  preferences := defaultPrefs }

def authW : AuthState := { users := [("u1", employeeUser)], sessions := [] }

/-- The chat system as its constructor leaves it: the initialized profile
table, no conversations. -/
def chatInit : ChatState := { profiles := agentProfiles, conversations := [] }

/-- One `startConversation` call of the fixture user against
`meeting_facilitator` (as the repository test does), keeping the new state. -/
def stepConv (st : ChatState) (cid gid : String) : ChatState :=
  match startConversation authW st "u1" "meeting_facilitator" none 0 cid gid "x" "y" with
  | .ok (st1, _) => st1
  | .error _ => st

/-- Three conversations started by user `u1` (the situation of the
repository's own pagination test). -/
def stC1 : ChatState := stepConv (stepConv (stepConv chatInit "c1" "g1") "c2" "g2") "c3" "g3"

def aliceUser : User := {
  employeeUser with id := "alice", email := "alice@example.com", password := "hash:alicepw" }

/-- A stored but deactivated user. -/
def bobUser : User := {
  employeeUser with
  id := "bob",
  email := "bob@example.com",
  password := "hash:bobpw",
  isActive := false }

def authC4 : AuthState := { users := [("alice", aliceUser), ("bob", bobUser)], sessions := [] }

/-- A stand-in for the external `bcrypt.compare`: the stored hash of `p` is
`"hash:" ++ p`. -/
def hashCompare (password stored : String) : Bool := stored == "hash:" ++ password

/-- A persona configured with a strategy key (`model`) that has no registered
handler in the `providers` table. -/
def testPersona : AgentProfile := {
  name := "Test Persona",
  title := "Test Officer",
  personality := "Terse",
  avatar := "T",
  description := "test persona",
  capabilities := [],
  greeting := "Hello from the test persona.",
  model := "gpt-5",
  temperature := 5,
  systemPrompt := "test" }

/-- The profile table extended with the unhandled-model persona. -/
def testProfiles : String → Option AgentProfile :=
  fun agentId => if agentId == "test_persona" then some testPersona else agentProfiles agentId

def convC3 : Conversation := {
  id := "conv3",
  userId := "u1",
  agentId := "test_persona",
  agentName := "Test Persona",
  startedAt := 0,
  lastActivity := 0,
  messages := [mkGreetingMessage "test_persona" testPersona "g3" 0],
  context := { userPreferences := [], conversationSummary := "", activeTopics := [] },
  status := .active,
  endedAt := none }

def stC3 : ChatState := { profiles := testProfiles, conversations := [("conv3", convC3)] }

def paramsC3 : AIParams := {
  systemPrompt := "test",
  context := {
    agentRole := "Test Officer",
    agentPersonality := "Terse",
    capabilities := [],
    conversationSummary := "",
    recentMessages := [],
    activeTopics := [] },
  userMessage := "hello",
  temperature := 5,
  agentPersonality := "Terse" }

def dummyMsg (i : Nat) : Message := {
  id := toString i,
  mtype := .user,
  authorId := "u1",
  content := "note",
  timestamp := i,
  meta := .none }

/-- A conversation already holding 8 messages. -/
def convC2 : Conversation := {
  id := "conv2",
  userId := "u1",
  agentId := "meeting_facilitator",
  agentName := "Meeting Facilitator",
  startedAt := 0,
  lastActivity := 0,
  messages := [dummyMsg 0, dummyMsg 1, dummyMsg 2, dummyMsg 3, dummyMsg 4, dummyMsg 5,
    dummyMsg 6, dummyMsg 7],
  context := { userPreferences := [], conversationSummary := "start", activeTopics := ["alpha"] },
  status := .active,
  endedAt := none }

def stC2 : ChatState := { profiles := agentProfiles, conversations := [("conv2", convC2)] }

/-- The registered profile of `meeting_facilitator`. -/
def mfAgent : AgentProfile := (agentProfiles "meeting_facilitator").getD testPersona

/-- An ended conversation: started by `u1`, then ended at time 9. -/
def stC6 : ChatState :=
  match endConversation (stepConv chatInit "c6" "g6") "u1" "c6" 9 with
  | .ok st1 => st1
  | .error _ => chatInit

def convC6 : Conversation := (lookupConv stC6 "c6").getD convC3

/-- A super-admin user. -/
def adminUser : User := {
  employeeUser with
  id := "adm",
  email := "admin@example.com",
  password := "hash:adminpw",
  role := "super_admin",
  permissions := ["*"],
  agentAccess := ["overlord", "all_agents"],
  spendingLimit := 1000000 }

def authC9 : AuthState := { users := [("adm", adminUser), ("u1", employeeUser)], sessions := [] }

/-- The fixture employee after a role change to `manager` at time 5. -/
def updatedU1 : User := {
  employeeUser with
  role := "manager",
  permissions := ["view_team_agents", "assign_tasks", "view_reports",
    "interact_with_assigned_agents"],
  agentAccess := ["research_director", "innovation_lead", "quality_assurance"],
  spendingLimit := 10000,
  updatedAt := some 5 }

def authC9v : AuthState := { users := [("adm", adminUser), ("u1", updatedU1)], sessions := [] }

/-- Message types alternate: agent at even indices, user at odd indices. -/
def AltOK (l : List Message) : Prop :=
  ∀ i m, l.get? i = some m →
    m.mtype = (if i % 2 = 0 then MsgType.agent else MsgType.user)

/-- Well-formedness of one stored conversation: its persona is registered,
the message count is odd, messages alternate agent/user starting from the
agent side, and the first message is the persona's greeting. -/
def ConvWF (profiles : String → Option AgentProfile) (conv : Conversation) : Prop :=
  ∃ agent, profiles conv.agentId = some agent ∧
    conv.messages.length % 2 = 1 ∧
    AltOK conv.messages ∧
    ∃ gid ts, conv.messages.head? = some (mkGreetingMessage conv.agentId agent gid ts)

/-- Well-formedness of the whole chat state. -/
def StateWF (st : ChatState) : Prop :=
  st.profiles = agentProfiles ∧ ∀ p ∈ st.conversations, ConvWF st.profiles p.2

/-- The states reachable from a freshly constructed chat system by any
sequence of `startConversation` / `sendMessage` / `endConversation` calls
(failing calls included: `sendMessage` returns the state it leaves behind). -/
inductive Reachable (auth : AuthState) : ChatState → Prop where
  | init : Reachable auth chatInit
  | start (st st' : ChatState) (conv : Conversation) (userId agentId : String)
      (initialMessage : Option String) (now : Nat) (cid gid umid amid : String) :
      Reachable auth st →
      startConversation auth st userId agentId initialMessage now cid gid umid amid =
        Except.ok (st', conv) →
      Reachable auth st'
  | send (st : ChatState) (userId conversationId message : String) (now : Nat)
      (umid amid : String) :
      Reachable auth st →
      Reachable auth (sendMessage st userId conversationId message now umid amid).1
  | endc (st st' : ChatState) (userId conversationId : String) (now : Nat) :
      Reachable auth st →
      endConversation st userId conversationId now = Except.ok st' →
      Reachable auth st'

/-- The registered profile of `company_mascot`. -/
def mascotAgent : AgentProfile := (agentProfiles "company_mascot").getD testPersona

/-- The conversation `startConversation` creates for the fixture user against
`company_mascot` with no initial message. -/
def convW : Conversation := {
  id := "c1",
  userId := "u1",
  agentId := "company_mascot",
  agentName := "Company Mascot",
  startedAt := 0,
  lastActivity := 0,
  messages := [mkGreetingMessage "company_mascot" mascotAgent "g1" 0],
  context := { userPreferences := [], conversationSummary := "", activeTopics := [] },
  status := .active,
  endedAt := none }

def stW : ChatState := { profiles := agentProfiles, conversations := [("c1", convW)] }

/-! ## Basic facts about topic extraction -/

theorem mem_dedupFirstAux {a : String} :
    ∀ (l seen : List String), a ∈ dedupFirstAux seen l ↔ (a ∈ l ∧ ¬ a ∈ seen) := by
  intro l
  induction l with
  | nil => intro seen; simp [dedupFirstAux]
  | cons x xs ih =>
      intro seen
      simp only [dedupFirstAux]
      by_cases hx : seen.contains x = true
      · have hxseen : x ∈ seen := by simpa using hx
        rw [if_pos hx, ih seen]
        constructor
        · rintro ⟨h1, h2⟩
          exact ⟨List.mem_cons_of_mem _ h1, h2⟩
        · rintro ⟨h1, h2⟩
          rcases List.mem_cons.mp h1 with h | h
          · exact absurd (h ▸ hxseen) h2
          · exact ⟨h, h2⟩
      · have hxseen : ¬ x ∈ seen := by simpa using hx
        rw [if_neg hx]
        simp only [List.mem_cons, ih (x :: seen)]
        constructor
        · rintro (h | ⟨h1, h2⟩)
          · exact ⟨Or.inl h, h ▸ hxseen⟩
          · exact ⟨Or.inr h1, fun hs => h2 (Or.inr hs)⟩
        · rintro ⟨h1, h2⟩
          rcases h1 with h | h
          · exact Or.inl h
          · by_cases hax : a = x
            · exact Or.inl hax
            · exact Or.inr ⟨h, fun hs => by
                rcases hs with hs | hs
                · exact hax hs
                · exact h2 hs⟩

theorem mem_dedupFirst {a : String} {l : List String} : a ∈ dedupFirst l ↔ a ∈ l := by
  unfold dedupFirst
  rw [mem_dedupFirstAux]
  simp

theorem nodup_dedupFirstAux : ∀ (l seen : List String), (dedupFirstAux seen l).Nodup := by
  intro l
  induction l with
  | nil => intro seen; simp [dedupFirstAux]
  | cons x xs ih =>
      intro seen
      simp only [dedupFirstAux]
      by_cases hx : seen.contains x = true
      · rw [if_pos hx]
        exact ih seen
      · rw [if_neg hx]
        refine List.nodup_cons.mpr ⟨fun hmem => ?_, ih _⟩
        have := (mem_dedupFirstAux xs (x :: seen)).mp hmem
        exact this.2 (List.mem_cons_self x seen)

theorem nodup_dedupFirst (l : List String) : (dedupFirst l).Nodup :=
  nodup_dedupFirstAux l []

theorem extractTopics_length_le (message : String) : (extractTopics message).length ≤ 5 :=
  List.length_take_le _ _

theorem extractTopics_minlen {message t : String} (h : t ∈ extractTopics message) :
    4 ≤ t.length := by
  have h1 : t ∈ ((splitChars (fun c => !isWordChar c) (toLowerCase message).data).map
      String.mk).filter (fun w => 4 ≤ w.length) := List.mem_of_mem_take h
  have := (List.mem_filter.mp h1).2
  simpa using this

/-! ## Helper lemmas -/

/-- Looking a key up after an in-place value replacement under that key. -/
theorem lookup_update {α : Type} (l : List (String × α)) (k : String) (v : α)
    (h : ((l.find? (fun p => p.1 == k)).map Prod.snd).isSome) :
    (((l.map (fun p => if p.1 == k then (p.1, v) else p)).find?
      (fun p => p.1 == k)).map Prod.snd) = some v := by
  induction l with
  | nil => simp [List.find?] at h
  | cons hd tl ih =>
      by_cases hk : (hd.1 == k) = true
      · simp only [List.map_cons, if_pos hk]
        rw [List.find?_cons_of_pos _ (by simpa using hk)]
        rfl
      · rw [List.find?_cons_of_neg _ (by simpa using hk)] at h
        simp only [List.map_cons, if_neg hk]
        rw [List.find?_cons_of_neg _ (by simpa using hk)]
        exact ih h

/-- `lookupConv` after `setConv` at a present key. -/
theorem lookupConv_setConv (st : ChatState) (cid : String) (conv c : Conversation)
    (h : lookupConv st cid = some c) :
    lookupConv (setConv st cid conv) cid = some conv := by
  have hs : ((st.conversations.find? (fun p => p.1 == cid)).map Prod.snd).isSome := by
    unfold lookupConv at h
    simp [h]
  exact lookup_update st.conversations cid conv hs

/-- `lookupUser` after `updateUserEntry` at a present key. -/
theorem lookupUser_update (auth : AuthState) (uid : String) (u x : User)
    (hsess : List (String × Session)) (h : lookupUser auth uid = some x) :
    lookupUser { users := updateUserEntry auth.users uid u, sessions := hsess } uid
      = some u := by
  have hs : ((auth.users.find? (fun p => p.1 == uid)).map Prod.snd).isSome := by
    unfold lookupUser at h
    simp [h]
  exact lookup_update auth.users uid u hs

/-- Indexing into a list extended by a user/agent message pair. -/
theorem get_append_pair (l : List Message) (u a : Message) (i : Nat)
    (h : i < (l ++ [u, a]).length) :
    (l ++ [u, a]).get ⟨i, h⟩ =
      if h1 : i < l.length then l.get ⟨i, h1⟩
      else if i = l.length then u else a := by
  induction l generalizing i with
  | nil =>
      simp only [List.nil_append, List.length, List.length_nil] at h ⊢
      match i, h with
      | 0, _ => simp
      | 1, _ => simp
  | cons x xs ih =>
      match i with
      | 0 => simp
      | i + 1 =>
          simp only [List.cons_append, List.length_cons, Nat.add_lt_add_iff_right] at h ⊢
          have := ih i h
          simp only [List.get, this]
          by_cases h1 : i < xs.length
          · rw [dif_pos h1, dif_pos (by omega)]
          · rw [dif_neg h1, dif_neg (by omega)]
            by_cases h2 : i = xs.length
            · rw [if_pos h2, if_pos (by omega)]
            · rw [if_neg h2, if_neg (by omega)]

/-- The head of a nonempty list is unchanged by appending. -/
theorem head_append_of_ne_nil (l l2 : List Message) (h : l ≠ []) :
    (l ++ l2).head? = l.head? := by
  cases l with
  | nil => exact absurd rfl h
  | cons x xs => rfl

/-- `updateConversationContext` never touches the message sequence, the
ids, the owner or the status. -/
theorem updateConversationContext_frame (c : Conversation) (m : String) :
    (updateConversationContext c m).messages = c.messages ∧
    (updateConversationContext c m).agentId = c.agentId ∧
    (updateConversationContext c m).userId = c.userId ∧
    (updateConversationContext c m).status = c.status ∧
    (updateConversationContext c m).lastActivity = c.lastActivity := by
  unfold updateConversationContext
  dsimp only
  split
  · exact ⟨rfl, rfl, rfl, rfl, rfl⟩
  · exact ⟨rfl, rfl, rfl, rfl, rfl⟩

/-- The regenerated summary does not depend on the previous summary text. -/
theorem generateConversationSummary_ignores_summary (c : Conversation) (s : String) :
    generateConversationSummary
      { c with context := { c.context with conversationSummary := s } } =
    generateConversationSummary c := rfl

/-- For a conversation whose persona is registered, `generateAgentResponse`
always returns a message (the `try` catches every provider failure), and that
message is agent-authored with the given id and timestamp. -/
theorem generateAgentResponse_ok (st : ChatState) (c : Conversation)
    (userMessage : String) (now : Nat) (mid : String) (agent : AgentProfile)
    (h : st.profiles c.agentId = some agent) :
    ∃ msg, generateAgentResponse st c userMessage now mid = .ok msg ∧
      msg.mtype = .agent ∧ msg.id = mid ∧ msg.authorId = c.agentId ∧
      msg.timestamp = now := by
  unfold generateAgentResponse
  rw [h]
  dsimp only
  cases hc : callAIProvider agent.model
      { systemPrompt := agent.systemPrompt,
        context := buildConversationContext agent c
          (List.drop (c.messages.length - 10) c.messages),
        userMessage := userMessage,
        temperature := agent.temperature,
        agentPersonality := agent.personality } with
  | ok response =>
      dsimp only
      exact ⟨_, rfl, rfl, rfl, rfl, rfl⟩
  | error e =>
      dsimp only
      exact ⟨_, rfl, rfl, rfl, rfl, rfl⟩

/-- A model name outside the `providers` table makes `callAIProvider` throw
the unsupported-model error. -/
theorem callAIProvider_unhandled (model : String) (params : AIParams)
    (h : ¬ model ∈ providerModels) :
    callAIProvider model params = .error (.error ("Unsupported AI model: " ++ model)) := by
  simp only [providerModels, List.mem_cons, List.not_mem_nil, or_false, not_or] at h
  obtain ⟨h1, h2, h3, h4, h5⟩ := h
  unfold callAIProvider
  rw [if_neg (by simpa using h1), if_neg (by simpa using h2), if_neg (by simpa using h3),
    if_neg (by simpa using h4), if_neg (by simpa using h5)]

/-- With an unhandled model, `generateAgentResponse` substitutes the fixed
fallback message. -/
theorem generateAgentResponse_fallback (st : ChatState) (c : Conversation)
    (userMessage : String) (now : Nat) (mid : String) (agent : AgentProfile)
    (h : st.profiles c.agentId = some agent) (hm : ¬ agent.model ∈ providerModels) :
    generateAgentResponse st c userMessage now mid =
      .ok (mkFallbackMessage c.agentId now mid) := by
  unfold generateAgentResponse
  rw [h]
  dsimp only
  rw [callAIProvider_unhandled _ _ hm]

/-! ## C1 — pagination total -/

/-- C1: the claim says `getUserConversations` reports `total` equal to the
full number of the user's conversations independent of the page size; the
code computes `total` from the already-sliced page. With three stored
conversations owned by `u1` and `limit = 2, offset = 0`, the returned page
has length 2, the full matching count is 3, yet the reported `total` is 2 —
contradicting both the claim and the repository's own test
(`tests/AgentChatSystem.test.js` expects `total` to be 3 here). -/
theorem getUserConversations_total_is_page_length :
    (getUserConversations stC1 "u1" 2 0).conversations.length = 2 ∧
    ((stC1.conversations.map Prod.snd).filter (fun conv => conv.userId == "u1")).length = 3 ∧
    (getUserConversations stC1 "u1" 2 0).total = 2 :=
  ⟨rfl, rfl, rfl⟩

/-! ## C5 — topic extraction -/

/-- C5 counterexample: topic extraction does not tokenize on whitespace; it
collects word-character runs (regex `\b\w{4,}\b`). On the message
`"ab-cdef"` the whitespace tokenization described by the claim yields
`["ab-cdef"]`, but the code yields `["cdef"]`. -/
theorem extractTopics_not_whitespace_cex :
    extractTopics "ab-cdef" = ["cdef"] ∧
    specExtractTopics "ab-cdef" = ["ab-cdef"] ∧
    extractTopics "ab-cdef" ≠ specExtractTopics "ab-cdef" :=
  ⟨rfl, rfl, by decide⟩

/-- C5 (amended): topic extraction lowercases the message, tokenizes it into
maximal word-character runs (letters, digits, underscore), keeps runs of
length at least 4, takes at most the first 5 as candidates, and
`updateConversationContext` unions them into the conversation's topic set
with no duplicates. -/
theorem updateConversationContext_topic_union (conversation : Conversation)
    (message : String) :
    ((updateConversationContext conversation message).context.activeTopics).Nodup ∧
    (∀ t, t ∈ (updateConversationContext conversation message).context.activeTopics ↔
      (t ∈ conversation.context.activeTopics ∨ t ∈ extractTopics message)) ∧
    (extractTopics message).length ≤ 5 ∧
    (∀ t, t ∈ extractTopics message → 4 ≤ t.length) := by
  have hat : (updateConversationContext conversation message).context.activeTopics =
      dedupFirst (conversation.context.activeTopics ++ extractTopics message) := by
    unfold updateConversationContext
    dsimp only
    split
    · rfl
    · rfl
  refine ⟨?_, ?_, extractTopics_length_le message, fun t ht => extractTopics_minlen ht⟩
  · rw [hat]
    exact nodup_dedupFirst _
  · intro t
    rw [hat, mem_dedupFirst, List.mem_append]

/-! ## C4 — login failure messages -/

/-- C4 counterexample: the claim quantifies over every pair of failing logins
in which no *active* user matches the email versus the credential check
fails. With the deactivated user bob stored, the first kind raises
"Account is deactivated" while the second raises "Invalid credentials" — the
messages differ, so such a caller can distinguish the two failure causes
(and learns that the account exists). -/
theorem login_error_messages_differ_cex :
    (∃ u, findUserByEmail authC4 "bob@example.com" = some u ∧ u.isActive = false) ∧
    login authC4 hashCompare "bob@example.com" "bobpw" 0 "s1" =
      Except.error "Account is deactivated" ∧
    login authC4 hashCompare "alice@example.com" "wrongpw" 0 "s2" =
      Except.error "Invalid credentials" ∧
    "Account is deactivated" ≠ "Invalid credentials" :=
  ⟨⟨bobUser, rfl, rfl⟩, rfl, rfl, by decide⟩

/-- C4 (amended): the two failure causes the code does keep
indistinguishable are "no user record at all matches the email" and "an
active matching user fails the credential check": both raise exactly
"Invalid credentials". A matching but deactivated user instead raises
"Account is deactivated", a distinguishable third message. -/
theorem login_invalid_credentials_uniform (auth : AuthState)
    (compare : String → String → Bool) (email password : String) (now : Nat)
    (sid : String) :
    (findUserByEmail auth email = none →
      login auth compare email password now sid = Except.error "Invalid credentials") ∧
    (∀ u, findUserByEmail auth email = some u → u.isActive = true →
      compare password u.password = false →
      login auth compare email password now sid = Except.error "Invalid credentials") := by
  constructor
  · intro h
    unfold login
    rw [h]
  · intro u hu hact hcmp
    unfold login
    rw [hu]
    dsimp only
    rw [hact, hcmp]
    rfl

/-- C4 witness: both uniform-message branches at concrete inputs. -/
theorem login_invalid_credentials_uniform_w :
    login authC4 hashCompare "carol@example.com" "pw" 0 "s3" =
      Except.error "Invalid credentials" ∧
    login authC4 hashCompare "alice@example.com" "wrongpw" 1 "s4" =
      Except.error "Invalid credentials" :=
  ⟨(login_invalid_credentials_uniform authC4 hashCompare "carol@example.com" "pw" 0
      "s3").1 rfl,
   (login_invalid_credentials_uniform authC4 hashCompare "alice@example.com" "wrongpw" 1
      "s4").2 aliceUser rfl rfl rfl⟩

/-! ## C3 — unsupported strategy key -/

/-- C3 counterexample: for the persona whose configured model `"gpt-5"` has
no registered handler, the dispatcher does throw the unsupported-model
error, but it does not propagate to the `sendMessage` caller: the catch-all
in `generateAgentResponse` recovers it by fallback substitution and the call
succeeds with the fallback message. -/
theorem unsupported_model_swallowed_cex :
    testPersona.model = "gpt-5" ∧
    callAIProvider testPersona.model paramsC3 =
      Except.error (JsError.error "Unsupported AI model: gpt-5") ∧
    (sendMessage stC3 "u1" "conv3" "hello" 1 "m1" "m2").2 =
      Except.ok (mkFallbackMessage "test_persona" 1 "m2") :=
  ⟨rfl, rfl, rfl⟩

/-- C3 (amended): if a persona's configured strategy key has no registered
handler, `callAIProvider` fails with the error `Unsupported AI model:
<model>`, but `generateAgentResponse` catches it like any backend failure
and substitutes the fixed fallback message, so the error reaches no
`SendMessage`/`StartConversation` caller — it is recovered locally by
fallback substitution. -/
theorem unsupported_model_fallback_not_propagated (st : ChatState)
    (conversation : Conversation) (agent : AgentProfile) (userMessage : String)
    (now : Nat) (mid : String)
    (hagent : st.profiles conversation.agentId = some agent)
    (hmodel : ¬ agent.model ∈ providerModels) :
    (∀ params, callAIProvider agent.model params =
      Except.error (JsError.error ("Unsupported AI model: " ++ agent.model))) ∧
    generateAgentResponse st conversation userMessage now mid =
      Except.ok (mkFallbackMessage conversation.agentId now mid) :=
  ⟨fun params => callAIProvider_unhandled agent.model params hmodel,
   generateAgentResponse_fallback st conversation userMessage now mid agent hagent hmodel⟩

/-- C3 witness: the amended statement at the concrete unhandled persona. -/
theorem unsupported_model_fallback_not_propagated_w :
    (∀ params, callAIProvider testPersona.model params =
      Except.error (JsError.error ("Unsupported AI model: " ++ testPersona.model))) ∧
    generateAgentResponse stC3 convC3 "hello" 1 "m2" =
      Except.ok (mkFallbackMessage convC3.agentId 1 "m2") :=
  unsupported_model_fallback_not_propagated stC3 convC3 testPersona "hello" 1 "m2" rfl
    (by decide)

/-! ## The successful shape of `sendMessage` -/

/-- On an owned active conversation whose persona is registered,
`sendMessage` always succeeds: it appends the user message and one generated
agent message, stamps `lastActivity`, runs `updateConversationContext`, and
returns the agent message. -/
theorem sendMessage_ok_shape (st : ChatState) (userId conversationId message : String)
    (now : Nat) (umid amid : String) (conversation : Conversation)
    (agent : AgentProfile)
    (hconv : lookupConv st conversationId = some conversation)
    (howner : conversation.userId = userId)
    (hactive : conversation.status = ConvStatus.active)
    (hagent : st.profiles conversation.agentId = some agent) :
    ∃ agentResponse,
      generateAgentResponse st (convPlusUser conversation userId message now umid)
        message now amid = Except.ok agentResponse ∧
      agentResponse.mtype = MsgType.agent ∧ agentResponse.id = amid ∧
      agentResponse.authorId = conversation.agentId ∧ agentResponse.timestamp = now ∧
      sendMessage st userId conversationId message now umid amid =
        (setConv st conversationId (updateConversationContext
          (convAfterSend conversation userId message now umid agentResponse) message),
         Except.ok agentResponse) := by
  obtain ⟨msg, hmsg, hty, hid, hau, hts⟩ :=
    generateAgentResponse_ok st (convPlusUser conversation userId message now umid)
      message now amid agent hagent
  refine ⟨msg, hmsg, hty, hid, hau, hts, ?_⟩
  unfold sendMessage
  rw [hconv]
  dsimp only
  have h1 : (conversation.userId != userId) = false := by simp [howner]
  have h2 : (conversation.status != ConvStatus.active) = false := by simp [hactive]
  rw [h1, h2]
  simp only [Bool.false_eq_true, if_false]
  unfold convPlusUser at hmsg
  rw [hmsg]
  dsimp only
  unfold convAfterSend
  rfl

/-! ## C6 — SendMessage on an ended conversation -/

/-- C6: `sendMessage` on an owned conversation whose status is `ended`
throws the state error ("Conversation is not active") and returns before
appending anything: the whole `conversations` map — hence the conversation's
message sequence — is exactly the one it started from. -/
theorem sendMessage_ended_state_error (st : ChatState)
    (userId conversationId message : String) (now : Nat) (umid amid : String)
    (conversation : Conversation)
    (hconv : lookupConv st conversationId = some conversation)
    (howner : conversation.userId = userId)
    (hended : conversation.status = ConvStatus.ended) :
    sendMessage st userId conversationId message now umid amid =
      (st, Except.error (JsError.error "Conversation is not active")) := by
  unfold sendMessage
  rw [hconv]
  dsimp only
  have h1 : (conversation.userId != userId) = false := by simp [howner]
  have h2 : (conversation.status != ConvStatus.active) = true := by simp [hended]
  rw [h1, h2]
  simp

/-- C6 witness: the concrete ended conversation. -/
theorem sendMessage_ended_state_error_w :
    sendMessage stC6 "u1" "c6" "hello" 10 "m1" "m2" =
      (stC6, Except.error (JsError.error "Conversation is not active")) :=
  sendMessage_ended_state_error stC6 "u1" "c6" "hello" 10 "m1" "m2" convC6 rfl rfl rfl

/-! ## C2 — periodic summary refresh -/

/-- The summary after `updateConversationContext`: regenerated exactly when
the stored message count is a multiple of 10, otherwise untouched. -/
theorem updateConversationContext_summary (c : Conversation) (m : String) :
    (updateConversationContext c m).context.conversationSummary =
      (if (updateConversationContext c m).messages.length % 10 = 0 then
        generateConversationSummary (updateConversationContext c m)
       else c.context.conversationSummary) := by
  unfold updateConversationContext
  dsimp only
  by_cases hc : (c.messages.length % 10 == 0) = true
  · have hn : c.messages.length % 10 = 0 := by simpa using hc
    rw [if_pos hc]
    dsimp only
    rw [if_pos hn]
    exact (generateConversationSummary_ignores_summary _ _).symm
  · have hn : ¬ c.messages.length % 10 = 0 := by simpa using hc
    rw [if_neg hc]
    dsimp only
    rw [if_neg hn]

/-- C2: on a successful `sendMessage`, the stored message count grows by two
and the stored summary is regenerated (from the updated topic set and the
message count) exactly when the new count is a multiple of 10; otherwise the
summary is left as it was. -/
theorem sendMessage_summary_refresh (st : ChatState)
    (userId conversationId message : String) (now : Nat) (umid amid : String)
    (conversation : Conversation) (agent : AgentProfile)
    (hconv : lookupConv st conversationId = some conversation)
    (howner : conversation.userId = userId)
    (hactive : conversation.status = ConvStatus.active)
    (hagent : st.profiles conversation.agentId = some agent) :
    ∃ conv4, lookupConv (sendMessage st userId conversationId message now umid amid).1
        conversationId = some conv4 ∧
      conv4.messages.length = conversation.messages.length + 2 ∧
      conv4.context.conversationSummary =
        (if conv4.messages.length % 10 = 0 then generateConversationSummary conv4
         else conversation.context.conversationSummary) := by
  obtain ⟨aresp, hgen, hty, hid, hau, hts, heq⟩ :=
    sendMessage_ok_shape st userId conversationId message now umid amid conversation
      agent hconv howner hactive hagent
  rw [heq]
  refine ⟨updateConversationContext
    (convAfterSend conversation userId message now umid aresp) message,
    lookupConv_setConv st conversationId _ conversation hconv, ?_, ?_⟩
  · have hm := (updateConversationContext_frame
      (convAfterSend conversation userId message now umid aresp) message).1
    rw [hm]
    unfold convAfterSend
    simp
  · have hs := updateConversationContext_summary
      (convAfterSend conversation userId message now umid aresp) message
    rw [hs]
    rfl

/-- C2 witness: a conversation holding 8 messages; the send brings the count
to 10 and the refresh fires. -/
theorem sendMessage_summary_refresh_w :
    ∃ conv4, lookupConv (sendMessage stC2 "u1" "conv2" "hello" 3 "m1" "m2").1
        "conv2" = some conv4 ∧
      conv4.messages.length = convC2.messages.length + 2 ∧
      conv4.context.conversationSummary =
        (if conv4.messages.length % 10 = 0 then generateConversationSummary conv4
         else convC2.context.conversationSummary) :=
  sendMessage_summary_refresh stC2 "u1" "conv2" "hello" 3 "m1" "m2" convC2 mfAgent
    rfl rfl rfl rfl

/-! ## C8 — fallback on dispatch failure -/

/-- C8: on an owned active conversation, when the dispatch backend fails
(the persona's model has no working handler), `sendMessage` still succeeds:
the user message is appended and answered by the single fixed fallback agent
message, whose metadata carries the error/fallback marker; the call never
leaves the user message unanswered. -/
theorem sendMessage_fallback_answer (st : ChatState)
    (userId conversationId message : String) (now : Nat) (umid amid : String)
    (conversation : Conversation) (agent : AgentProfile)
    (hconv : lookupConv st conversationId = some conversation)
    (howner : conversation.userId = userId)
    (hactive : conversation.status = ConvStatus.active)
    (hagent : st.profiles conversation.agentId = some agent)
    (hfail : ¬ agent.model ∈ providerModels) :
    (sendMessage st userId conversationId message now umid amid).2 =
      Except.ok (mkFallbackMessage conversation.agentId now amid) ∧
    (mkFallbackMessage conversation.agentId now amid).meta = MessageMeta.fallback ∧
    ∃ conv4,
      lookupConv (sendMessage st userId conversationId message now umid amid).1
        conversationId = some conv4 ∧
      conv4.messages = (conversation.messages ++ [mkUserMessage userId message now umid])
        ++ [mkFallbackMessage conversation.agentId now amid] := by
  obtain ⟨aresp, hgen, hty, hid, hau, hts, heq⟩ :=
    sendMessage_ok_shape st userId conversationId message now umid amid conversation
      agent hconv howner hactive hagent
  have hfb := generateAgentResponse_fallback st
    (convPlusUser conversation userId message now umid) message now amid agent hagent hfail
  rw [hgen] at hfb
  have haresp : aresp = mkFallbackMessage conversation.agentId now amid :=
    (Except.ok.injEq _ _).mp hfb
  subst haresp
  rw [heq]
  refine ⟨rfl, rfl, updateConversationContext
    (convAfterSend conversation userId message now umid
      (mkFallbackMessage conversation.agentId now amid)) message,
    lookupConv_setConv st conversationId _ conversation hconv, ?_⟩
  have hm := (updateConversationContext_frame
    (convAfterSend conversation userId message now umid
      (mkFallbackMessage conversation.agentId now amid)) message).1
  rw [hm]
  rfl

/-- C8 witness: the unhandled-model persona conversation. -/
theorem sendMessage_fallback_answer_w :
    (sendMessage stC3 "u1" "conv3" "hi" 2 "m5" "m6").2 =
      Except.ok (mkFallbackMessage convC3.agentId 2 "m6") ∧
    (mkFallbackMessage convC3.agentId 2 "m6").meta = MessageMeta.fallback ∧
    ∃ conv4,
      lookupConv (sendMessage stC3 "u1" "conv3" "hi" 2 "m5" "m6").1 "conv3" = some conv4 ∧
      conv4.messages = (convC3.messages ++ [mkUserMessage "u1" "hi" 2 "m5"])
        ++ [mkFallbackMessage convC3.agentId 2 "m6"] :=
  sendMessage_fallback_answer stC3 "u1" "conv3" "hi" 2 "m5" "m6" convC3 testPersona
    rfl rfl rfl rfl (by decide)

/-! ## C9 — role change replaces all grants -/

/-- C9: every successful `updateUserRole` leaves the target's role name,
permission set, persona-access set and spending limit equal exactly to the
new role's grants — all three replaced together, nothing residual — and
returns the sanitized updated record. -/
theorem updateUserRole_replaces_grants (auth : AuthState)
    (adminUserId targetUserId newRole : String) (now : Nat)
    (auth1 : AuthState) (su : SanitizedUser)
    (h : updateUserRole auth adminUserId targetUserId newRole now = Except.ok (auth1, su)) :
    ∃ role, roles newRole = some role ∧
      ∃ target1, lookupUser auth1 targetUserId = some target1 ∧
        target1.role = newRole ∧
        target1.permissions = role.permissions ∧
        target1.agentAccess = role.agentAccess ∧
        target1.spendingLimit = role.spendingLimit ∧
        su = sanitizeUser target1 := by
  unfold updateUserRole at h
  cases ha : lookupUser auth adminUserId with
  | none => rw [ha] at h; simp at h
  | some admin =>
    cases ht : lookupUser auth targetUserId with
    | none => rw [ha, ht] at h; simp at h
    | some targetUser =>
      rw [ha, ht] at h
      dsimp only at h
      by_cases hperm :
          ((!hasPermission auth adminUserId "*") && (admin.role != "super_admin")) = true
      · rw [if_pos hperm] at h
        simp at h
      · rw [if_neg hperm] at h
        cases hr : roles newRole with
        | none => rw [hr] at h; simp at h
        | some role =>
          rw [hr] at h
          dsimp only at h
          have hpair := (Except.ok.injEq _ _).mp h
          have hauth : auth1 = { auth with
            users := updateUserEntry auth.users targetUserId { targetUser with
              role := newRole,
              permissions := role.permissions,
              agentAccess := role.agentAccess,
              spendingLimit := role.spendingLimit,
              updatedAt := some now } } := congrArg Prod.fst hpair.symm
          have hsu : su = sanitizeUser { targetUser with
            role := newRole,
            permissions := role.permissions,
            agentAccess := role.agentAccess,
            spendingLimit := role.spendingLimit,
            updatedAt := some now } := congrArg Prod.snd hpair.symm
          refine ⟨role, rfl, { targetUser with
            role := newRole,
            permissions := role.permissions,
            agentAccess := role.agentAccess,
            spendingLimit := role.spendingLimit,
            updatedAt := some now }, ?_, rfl, rfl, rfl, rfl, hsu⟩
          rw [hauth]
          exact lookupUser_update auth targetUserId _ targetUser auth.sessions ht

/-- C9 witness: the concrete role change from `employee` to `manager`. -/
theorem updateUserRole_replaces_grants_w :
    ∃ role, roles "manager" = some role ∧
      ∃ target1, lookupUser authC9v "u1" = some target1 ∧
        target1.role = "manager" ∧
        target1.permissions = role.permissions ∧
        target1.agentAccess = role.agentAccess ∧
        target1.spendingLimit = role.spendingLimit ∧
        sanitizeUser updatedU1 = sanitizeUser target1 :=
  updateUserRole_replaces_grants authC9 "adm" "u1" "manager" 5 authC9v
    (sanitizeUser updatedU1) rfl

/-! ## C7 and C10 — conversation shape invariants -/

theorem lookupConv_mem (st : ChatState) (cid : String) (conv : Conversation)
    (h : lookupConv st cid = some conv) : ∃ p ∈ st.conversations, p.2 = conv := by
  unfold lookupConv at h
  cases hf : st.conversations.find? (fun p => p.1 == cid) with
  | none => rw [hf] at h; simp at h
  | some p =>
      rw [hf] at h
      have h2 : some p.2 = some conv := h
      exact ⟨p, List.mem_of_find?_eq_some hf, by injection h2⟩

theorem convWF_singleton (profiles : String → Option AgentProfile)
    (conv : Conversation) (agent : AgentProfile) (gid : String) (ts : Nat)
    (hA : profiles conv.agentId = some agent)
    (hm : conv.messages = [mkGreetingMessage conv.agentId agent gid ts]) :
    ConvWF profiles conv := by
  refine ⟨agent, hA, by rw [hm]; rfl, ?_, gid, ts, by rw [hm]; rfl⟩
  intro i m hg
  rw [hm] at hg
  match i with
  | 0 =>
      have : m = mkGreetingMessage conv.agentId agent gid ts := by
        simpa using hg.symm
      rw [this]
      rfl
  | i + 1 =>
      rw [List.get?_cons_succ, List.get?_nil] at hg
      exact Option.noConfusion hg

theorem convWF_append_pair (profiles : String → Option AgentProfile)
    (conv conv' : Conversation) (u a : Message)
    (hwf : ConvWF profiles conv)
    (hagent : conv'.agentId = conv.agentId)
    (hm : conv'.messages = conv.messages ++ [u, a])
    (hu : u.mtype = MsgType.user) (ha : a.mtype = MsgType.agent) :
    ConvWF profiles conv' := by
  obtain ⟨agent, hA, hlen, halt, gid, ts, hhead⟩ := hwf
  have hne : conv.messages ≠ [] := by
    intro h0
    rw [h0] at hlen
    simp at hlen
  refine ⟨agent, by rw [hagent]; exact hA, ?_, ?_, gid, ts, ?_⟩
  · rw [hm]
    simp only [List.length_append, List.length_cons, List.length_nil]
    omega
  · intro i m hg
    rw [hm] at hg
    by_cases hi : i < conv.messages.length
    · rw [List.get?_append hi] at hg
      exact halt i m hg
    · have hle : conv.messages.length ≤ i := Nat.le_of_not_lt hi
      rw [List.get?_append_right hle] at hg
      cases hd : i - conv.messages.length with
      | zero =>
          rw [hd] at hg
          have hieq : i = conv.messages.length := by omega
          have hmu : m = u := by simpa using hg.symm
          rw [hmu, hu, hieq]
          have : ¬ conv.messages.length % 2 = 0 := by omega
          rw [if_neg this]
      | succ n =>
          cases n with
          | zero =>
              rw [hd] at hg
              have hieq : i = conv.messages.length + 1 := by omega
              have hma : m = a := by simpa using hg.symm
              rw [hma, ha, hieq]
              have : (conv.messages.length + 1) % 2 = 0 := by omega
              rw [if_pos this]
          | succ k =>
              rw [hd] at hg
              simp at hg
  · rw [hm, hagent]
    rw [head_append_of_ne_nil _ _ hne]
    exact hhead

theorem convWF_congr (profiles : String → Option AgentProfile)
    (conv conv' : Conversation)
    (h1 : conv'.agentId = conv.agentId) (h2 : conv'.messages = conv.messages)
    (hwf : ConvWF profiles conv) : ConvWF profiles conv' := by
  obtain ⟨agent, hA, hlen, halt, gid, ts, hhead⟩ := hwf
  refine ⟨agent, ?_, ?_, ?_, gid, ts, ?_⟩
  · rw [h1]; exact hA
  · rw [h2]; exact hlen
  · show AltOK conv'.messages
    rw [h2]; exact halt
  · rw [h2, h1]; exact hhead

/-- An `Except.ok` result of `generateAgentResponse` is an agent-authored
message with the supplied id and timestamp. -/
theorem generateAgentResponse_mtype {st : ChatState} {c : Conversation} {m : String}
    {now : Nat} {mid : String} {msg : Message} (agent : AgentProfile)
    (hA : st.profiles c.agentId = some agent)
    (h : generateAgentResponse st c m now mid = Except.ok msg) :
    msg.mtype = MsgType.agent ∧ msg.id = mid ∧ msg.authorId = c.agentId ∧
      msg.timestamp = now := by
  obtain ⟨msg2, hg2, hty, hid, hau, hts⟩ := generateAgentResponse_ok st c m now mid agent hA
  rw [h] at hg2
  have hmm : msg = msg2 := by injection hg2
  subst hmm
  exact ⟨hty, hid, hau, hts⟩

/-- With its persona registered, `generateAgentResponse` cannot throw. -/
theorem generateAgentResponse_ne_error {st : ChatState} {c : Conversation} {m : String}
    {now : Nat} {mid : String} {e : JsError} (agent : AgentProfile)
    (hA : st.profiles c.agentId = some agent)
    (h : generateAgentResponse st c m now mid = Except.error e) : False := by
  obtain ⟨msg2, hg2, _⟩ := generateAgentResponse_ok st c m now mid agent hA
  rw [h] at hg2
  exact Except.noConfusion hg2

/-- What a successful `startConversation` did: the new conversation was
appended to the map under its fresh id, its persona is registered, and its
message list is the greeting alone or the greeting followed by the initial
user message and one agent reply. -/
theorem startConversation_inv (auth : AuthState) (st st' : ChatState)
    (conv : Conversation) (userId agentId : String) (initialMessage : Option String)
    (now : Nat) (cid gid umid amid : String)
    (h : startConversation auth st userId agentId initialMessage now cid gid umid amid =
      Except.ok (st', conv)) :
    ∃ agent, st.profiles agentId = some agent ∧
      st' = { st with conversations := st.conversations ++ [(cid, conv)] } ∧
      conv.agentId = agentId ∧
      (conv.messages = [mkGreetingMessage agentId agent gid now] ∨
       ∃ m aresp, aresp.mtype = MsgType.agent ∧
         conv.messages = ([mkGreetingMessage agentId agent gid now]
           ++ [mkUserMessage userId m now umid]) ++ [aresp]) := by
  unfold startConversation at h
  by_cases hacc : (!canAccessAgent auth userId agentId) = true
  · rw [if_pos hacc] at h
    exact absurd h (by simp)
  · rw [if_neg hacc] at h
    cases hp : st.profiles agentId with
    | none => rw [hp] at h; simp at h
    | some agent =>
      rw [hp] at h
      dsimp only at h
      cases initialMessage with
      | none =>
          have hpair := (Except.ok.injEq _ _).mp h
          have h1 := congrArg Prod.fst hpair
          have h2 := congrArg Prod.snd hpair
          dsimp only at h1 h2
          refine ⟨agent, rfl, ?_, ?_, Or.inl ?_⟩
          · rw [← h2]
            exact h1.symm
          · rw [← h2]
          · rw [← h2]
      | some m =>
          dsimp only at h
          split at h
          next e heq =>
              exact absurd h (by simp)
          next aresp heq =>
              have hmt := generateAgentResponse_mtype agent hp heq
              have hpair := (Except.ok.injEq _ _).mp h
              have h1 := congrArg Prod.fst hpair
              have h2 := congrArg Prod.snd hpair
              dsimp only at h1 h2
              refine ⟨agent, rfl, ?_, ?_, Or.inr ⟨m, aresp, hmt.1, ?_⟩⟩
              · rw [← h2]
                exact h1.symm
              · rw [← h2]
              · rw [← h2]

/-- `sendMessage` preserves state well-formedness whatever its outcome. -/
theorem sendMessage_preserves_wf (st : ChatState)
    (userId conversationId message : String) (now : Nat) (umid amid : String)
    (hwf : StateWF st) :
    StateWF (sendMessage st userId conversationId message now umid amid).1 := by
  obtain ⟨hprof, hall⟩ := hwf
  cases hc : lookupConv st conversationId with
  | none =>
      unfold sendMessage
      rw [hc]
      exact ⟨hprof, hall⟩
  | some conversation =>
      obtain ⟨p, hpmem, hpv⟩ := lookupConv_mem st conversationId conversation hc
      have hcwf : ConvWF st.profiles conversation := hpv ▸ hall p hpmem
      obtain ⟨agent, hA, hlen, halt, gid, ts, hhead⟩ := hcwf
      unfold sendMessage
      rw [hc]
      dsimp only
      by_cases h1 : (conversation.userId != userId) = true
      · rw [if_pos h1]
        exact ⟨hprof, hall⟩
      · rw [if_neg h1]
        by_cases h2 : (conversation.status != ConvStatus.active) = true
        · rw [if_pos h2]
          exact ⟨hprof, hall⟩
        · rw [if_neg h2]
          split
          next e heq =>
              exact absurd heq (fun hh => (generateAgentResponse_ne_error agent hA hh).elim)
          next aresp heq =>
              have hmt := generateAgentResponse_mtype agent hA heq
              dsimp only
              refine ⟨hprof, ?_⟩
              intro q hq
              unfold setConv at hq
              dsimp only at hq
              obtain ⟨p2, hp2mem, hp2eq⟩ := List.mem_map.mp hq
              by_cases hk : (p2.1 == conversationId) = true
              · rw [if_pos hk] at hp2eq
                rw [← hp2eq]
                have hstep : ConvWF st.profiles (updateConversationContext
                    (convAfterSend conversation userId message now umid aresp) message) := by
                  apply convWF_congr st.profiles
                    (convAfterSend conversation userId message now umid aresp)
                  · exact (updateConversationContext_frame _ _).2.1
                  · exact (updateConversationContext_frame _ _).1
                  · apply convWF_append_pair st.profiles conversation
                      (convAfterSend conversation userId message now umid aresp)
                      (mkUserMessage userId message now umid) aresp
                    · exact ⟨agent, hA, hlen, halt, gid, ts, hhead⟩
                    · rfl
                    · unfold convAfterSend
                      dsimp only
                      rw [List.append_assoc]
                      rfl
                    · rfl
                    · exact hmt.1
                exact hstep
              · rw [if_neg hk] at hp2eq
                rw [← hp2eq]
                exact hall p2 hp2mem

/-- `endConversation` preserves state well-formedness. -/
theorem endConversation_preserves_wf (st st' : ChatState)
    (userId conversationId : String) (now : Nat)
    (h : endConversation st userId conversationId now = Except.ok st')
    (hwf : StateWF st) : StateWF st' := by
  obtain ⟨hprof, hall⟩ := hwf
  unfold endConversation at h
  cases hc : lookupConv st conversationId with
  | none => rw [hc] at h; simp at h
  | some conversation =>
      obtain ⟨p, hpmem, hpv⟩ := lookupConv_mem st conversationId conversation hc
      have hcwf : ConvWF st.profiles conversation := hpv ▸ hall p hpmem
      rw [hc] at h
      dsimp only at h
      by_cases h1 : (conversation.userId != userId) = true
      · rw [if_pos h1] at h
        simp at h
      · rw [if_neg h1] at h
        have hpair : setConv st conversationId
            { conversation with status := ConvStatus.ended, endedAt := some now } = st' := by
          injection h
        rw [← hpair]
        refine ⟨hprof, ?_⟩
        intro q hq
        unfold setConv at hq
        dsimp only at hq
        obtain ⟨p2, hp2mem, hp2eq⟩ := List.mem_map.mp hq
        by_cases hk : (p2.1 == conversationId) = true
        · rw [if_pos hk] at hp2eq
          rw [← hp2eq]
          exact convWF_congr st.profiles conversation _ rfl rfl hcwf
        · rw [if_neg hk] at hp2eq
          rw [← hp2eq]
          exact hall p2 hp2mem

/-- Every reachable chat state is well-formed. -/
theorem reachable_wf (auth : AuthState) (st : ChatState) (h : Reachable auth st) :
    StateWF st := by
  induction h with
  | init =>
      refine ⟨rfl, ?_⟩
      intro p hp
      simp [chatInit] at hp
  | start st st' conv userId agentId initialMessage now cid gid umid amid hr heq ih =>
      obtain ⟨agent, hA, hst', hagid, hshape⟩ := startConversation_inv auth st st' conv
        userId agentId initialMessage now cid gid umid amid heq
      subst hst'
      refine ⟨ih.1, ?_⟩
      intro p hp
      rcases List.mem_append.mp hp with hp | hp
      · exact ih.2 p hp
      · have hpc : p = (cid, conv) := by simpa using hp
        subst hpc
        rcases hshape with hm | ⟨m, aresp, hty, hm⟩
        · exact convWF_singleton _ conv agent gid now (by rw [hagid]; exact hA)
            (by rw [hagid]; exact hm)
        · apply convWF_append_pair st.profiles
            { conv with messages := [mkGreetingMessage agentId agent gid now] } conv
            (mkUserMessage userId m now umid) aresp
          · exact convWF_singleton _ _ agent gid now (by dsimp only; rw [hagid]; exact hA)
              (by dsimp only; rw [hagid])
          · rfl
          · rw [hm]
            dsimp only
            rw [List.append_assoc]
            rfl
          · rfl
          · exact hty
  | send st userId conversationId message now umid amid hr ih =>
      exact sendMessage_preserves_wf st userId conversationId message now umid amid ih
  | endc st st' userId conversationId now hr heq ih =>
      exact endConversation_preserves_wf st st' userId conversationId now heq ih

/-- C7: in every reachable state, every stored conversation's first message
is its persona's agent-authored greeting — whether or not an initial user
message was supplied at creation, and after every subsequent operation. -/
theorem conversation_head_is_greeting (auth : AuthState) (st : ChatState)
    (hreach : Reachable auth st) (conversationId : String) (conv : Conversation)
    (hconv : lookupConv st conversationId = some conv) :
    ∃ agent gid ts, agentProfiles conv.agentId = some agent ∧
      conv.messages.head? = some (mkGreetingMessage conv.agentId agent gid ts) := by
  obtain ⟨hprof, hall⟩ := reachable_wf auth st hreach
  obtain ⟨p, hpmem, hpv⟩ := lookupConv_mem st conversationId conv hconv
  obtain ⟨agent, hA, hlen, halt, gid, ts, hhead⟩ := hpv ▸ hall p hpmem
  exact ⟨agent, gid, ts, hprof ▸ hA, hhead⟩

/-- C10: in every reachable state — i.e. after every completed
`startConversation` or `sendMessage` (or `endConversation`) — every stored
conversation has an odd message count, its last message is agent-authored,
and every user-authored message is immediately followed by an agent-authored
one. -/
theorem conversation_alternation (auth : AuthState) (st : ChatState)
    (hreach : Reachable auth st) (conversationId : String) (conv : Conversation)
    (hconv : lookupConv st conversationId = some conv) :
    conv.messages.length % 2 = 1 ∧
    (∃ mlast, conv.messages.get? (conv.messages.length - 1) = some mlast ∧
      mlast.mtype = MsgType.agent) ∧
    (∀ i m, conv.messages.get? i = some m → m.mtype = MsgType.user →
      ∃ m2, conv.messages.get? (i + 1) = some m2 ∧ m2.mtype = MsgType.agent) := by
  obtain ⟨hprof, hall⟩ := reachable_wf auth st hreach
  obtain ⟨p, hpmem, hpv⟩ := lookupConv_mem st conversationId conv hconv
  obtain ⟨agent, hA, hlen, halt, gid, ts, hhead⟩ := hpv ▸ hall p hpmem
  refine ⟨hlen, ?_, ?_⟩
  · have hpos : 0 < conv.messages.length := by omega
    have hlt : conv.messages.length - 1 < conv.messages.length := by omega
    have hg := List.get?_eq_get hlt
    refine ⟨conv.messages.get ⟨conv.messages.length - 1, hlt⟩, hg, ?_⟩
    have := halt (conv.messages.length - 1) _ hg
    rw [this]
    have heven : (conv.messages.length - 1) % 2 = 0 := by omega
    rw [if_pos heven]
  · intro i m hg hu
    have hmt := halt i m hg
    have hi : i < conv.messages.length := by
      rcases List.get?_eq_some.mp hg with ⟨hb, _⟩
      exact hb
    have hodd : i % 2 = 1 := by
      by_cases he : i % 2 = 0
      · rw [if_pos he] at hmt
        rw [hu] at hmt
        exact absurd hmt (by simp)
      · omega
    have hlt2 : i + 1 < conv.messages.length := by omega
    have hg2 := List.get?_eq_get hlt2
    refine ⟨conv.messages.get ⟨i + 1, hlt2⟩, hg2, ?_⟩
    have := halt (i + 1) _ hg2
    rw [this]
    have heven : (i + 1) % 2 = 0 := by omega
    rw [if_pos heven]

/-- C7 witness: the state reached by one `startConversation` call. -/
theorem conversation_head_is_greeting_w :
    ∃ agent gid ts, agentProfiles convW.agentId = some agent ∧
      convW.messages.head? = some (mkGreetingMessage convW.agentId agent gid ts) :=
  conversation_head_is_greeting authW stW
    (Reachable.start chatInit stW convW "u1" "company_mascot" none 0 "c1" "g1" "x" "y"
      Reachable.init rfl) "c1" convW rfl

/-- C10 witness: the same reachable state. -/
theorem conversation_alternation_w :
    convW.messages.length % 2 = 1 ∧
    (∃ mlast, convW.messages.get? (convW.messages.length - 1) = some mlast ∧
      mlast.mtype = MsgType.agent) ∧
    (∀ i m, convW.messages.get? i = some m → m.mtype = MsgType.user →
      ∃ m2, convW.messages.get? (i + 1) = some m2 ∧ m2.mtype = MsgType.agent) :=
  conversation_alternation authW stW
    (Reachable.start chatInit stW convW "u1" "company_mascot" none 0 "c1" "g1" "x" "y"
      Reachable.init rfl) "c1" convW rfl
